import Mathlib

/-!
# Verification of the ts-node-dcu authentication / rate-limiting core

Shallow embedding of the token lifecycle manager (`TokenService`,
`AuthService`) and the rate-limiting layer (`RedisRateLimitAdapter`,
file-based `RateLimitAdapter`, `RateLimitMiddleware`) of the repository,
together with proofs of the behavioural claims about them.

Conventions:
* wall-clock time is a `Nat` counting milliseconds (`Date.now()`);
  JWT timestamps (`iat`/`exp`) are in seconds as in `jsonwebtoken`;
* a JWT string is modelled by the inductive `Token`: signing is injective
  on payloads, verification recovers the payload of a signed token and
  rejects everything else;
* TypeORM repositories are modelled by lists; `findOne` is `List.find?`
  (first match), `find` is `List.filter`;
* async methods that can throw are modelled with `Except String`, the
  error being the `Error` message thrown/returned by the source;
* the possibly non-terminating Redis `getRecord`/`resetRecord` mutual
  recursion is modelled with a fuel parameter (`none` = no result).
-/

/-- JWT payload `{id, type, iat, exp}` as produced by `jwt.sign` in
`Token.service.ts` (the `id`/`type` fields come from the signed object,
`iat`/`exp` are added by `jsonwebtoken`, in seconds). -/
structure TokenPayload where
  id : String
  type : String
  iat : Nat
  exp : Nat
deriving DecidableEq, Repr

/-- A token string: either the empty string (falsy in JS), a properly
signed token embedding a payload, or an arbitrary non-verifying string. -/
inductive Token where
  | empty : Token
  | signed : TokenPayload → Token
  | malformed : String → Token
deriving DecidableEq, Repr

/-- Outcomes of `jwt.verify`: `TokenExpiredError` or any other failure. -/
inductive JwtError where
  | expired : JwtError
  | malformed : JwtError
deriving DecidableEq, Repr

/-- The `jwt.verify(token, secret)`: a signed token verifies to its payload
unless the clock (seconds, `Math.floor(now/1000)`) has reached `exp`;
anything else raises a structural/signature error. -/
def jwtVerify (now : Nat) (t : Token) : Except JwtError TokenPayload :=
  match t with
  | .signed p => if p.exp ≤ now / 1000 then .error .expired else .ok p
  | _ => .error .malformed

def TOKEN_TYPES_ACCESS : String := "access"

def TOKEN_TYPES_REFRESH : String := "refresh"

def TOKEN_TYPES_REMEMBER_ME : String := "remember_me"

def MAX_TOKEN_AGE_DAYS : Nat := 30

def ALLOWED_IP_CHANGE : Bool := false

def ALLOWED_USER_AGENT_CHANGE : Bool := false

/-- The `TokenService.validateTokenType`: verify the token, reject an empty
`payload.id` ("Invalid token structure."), and when an expected type is
supplied reject a type mismatch. -/
def validateTokenType (now : Nat) (token : Token) (expectedType : Option String) :
    Except String TokenPayload :=
  match jwtVerify now token with
  | .error .expired => .error "Token has expired."
  | .error .malformed => .error "Invalid token format."
  | .ok payload =>
    if payload.id = "" then .error "Invalid token structure."
    else
      match expectedType with
      | some t =>
        if payload.type ≠ t then .error ("Invalid token type. Expected: " ++ t)
        else .ok payload
      | none => .ok payload

/-- Result of `TokenService.validateTokenAge`. -/
structure AgeCheck where
  isValid : Bool
  message : String
deriving DecidableEq, Repr

/-- The `TokenService.validateTokenAge`: missing (falsy) `iat` is rejected,
then `now - iat*1000 > 30 days` is rejected.  JS computes the difference
as a possibly negative number which then fails the `>` test; truncated
`Nat` subtraction yields the same boolean. -/
def validateTokenAge (now : Nat) (payload : TokenPayload) : AgeCheck :=
  if payload.iat = 0 then { isValid := false, message := "Token issue time not found." }
  else if MAX_TOKEN_AGE_DAYS * 24 * 60 * 60 * 1000 < now - payload.iat * 1000 then
    { isValid := false, message := "Token has exceeded maximum age of 30 days." }
  else { isValid := true, message := "Token age is valid." }

/-- The `TokenService.generateAccessToken`: sign `{id, type: 'access'}` with
`expiresIn: '45m'` (`jsonwebtoken` sets `iat = floor(now/1000)`,
`exp = iat + 2700`). -/
def generateAccessToken (now : Nat) (userId : String) : Token :=
  .signed { id := userId, type := TOKEN_TYPES_ACCESS, iat := now / 1000, exp := now / 1000 + 45 * 60 }

/-- The `TokenService.generateRefreshToken` (`expiresIn: '7d'`). -/
def generateRefreshToken (now : Nat) (userId : String) : Token :=
  .signed { id := userId, type := TOKEN_TYPES_REFRESH, iat := now / 1000,
            exp := now / 1000 + 7 * 24 * 60 * 60 }

/-- The `TokenService.generateRememberMeToken` (`expiresIn: '14d'`). -/
def generateRememberMeToken (now : Nat) (userId : String) : Token :=
  .signed { id := userId, type := TOKEN_TYPES_REMEMBER_ME, iat := now / 1000,
            exp := now / 1000 + 14 * 24 * 60 * 60 }

/-- The `auth_tokens` row (`AuthToken` entity), restricted to the columns
the token lifecycle reads or writes.  `id` is the generated primary key. -/
structure AuthToken where
  id : Nat
  user_id : String
  access_token : Token
  refresh_token : Token
  ip_address : String
  user_agent : String
  revoked : Bool
  remember_me_token : Option Token
  is_remember_me_token : Bool
  remember_me_expires_at : Option Nat
  token_version : Option Nat
  last_used_at : Option Nat
deriving DecidableEq, Repr

/-- The `TokenService.calculateRememberMeExpiration`: wall-clock now plus 14
days (`setDate(getDate()+14)`), in milliseconds. -/
def calculateRememberMeExpiration (now : Nat) : Nat :=
  now + 14 * 24 * 60 * 60 * 1000

/-- The `TokenService.createTokenRecord`: build a fresh (non-persisted) row
with newly generated access and refresh tokens; when `isRememberMe` also
generate the remember-me token, its stored expiry and the version. -/
def createTokenRecord (now : Nat) (newId : Nat) (userId ipAddress userAgent : String)
    (isRememberMe : Bool) (tokenVersion : Nat) : AuthToken :=
  let base : AuthToken :=
    { id := newId, user_id := userId,
      access_token := generateAccessToken now userId,
      refresh_token := generateRefreshToken now userId,
      ip_address := ipAddress, user_agent := userAgent,
      revoked := false, remember_me_token := none, is_remember_me_token := false,
      remember_me_expires_at := none, token_version := none, last_used_at := none }
  if isRememberMe then
    { base with
      remember_me_token := some (generateRememberMeToken now userId),
      is_remember_me_token := true,
      remember_me_expires_at := some (calculateRememberMeExpiration now),
      token_version := some tokenVersion }
  else base

/-- The user fields the token lifecycle reads (`UserService.findUserById`
result). -/
structure User where
  id : String
  email : String
  is_active : Bool
  is_email_verified : Bool
deriving DecidableEq, Repr

/-- The `UserService.findUserById`: `User.findOne({where: {id}})`, erring with
"User not found." when absent.  The user directory is a list parameter. -/
def findUserById (users : List User) (id : String) : Except String User :=
  match users.find? (fun u => decide (u.id = id)) with
  | none => .error "User not found."
  | some u => .ok u

/-- The `TokenService.revokeTokens` inside one transaction: every row whose id
is in `toRevoke` gets `revokeToken()` applied (`revoked := true`,
`last_used_at := now`). -/
def revokeTokens (now : Nat) (store : List AuthToken) (toRevoke : List AuthToken) :
    List AuthToken :=
  store.map (fun r =>
    if toRevoke.any (fun t => t.id == r.id) then
      { r with revoked := true, last_used_at := some now }
    else r)

/-- The `user_status` snapshot carried by `TokenValidationResponse`. -/
structure UserStatus where
  is_active : Bool
  is_email_verified : Bool
  token_status : String
deriving DecidableEq, Repr

/-- The `TokenValidationResponse` of `Token.service.ts`. -/
structure TokenValidationResponse where
  user : Option User
  is_valid : Bool
  message : String
  user_status : Option UserStatus
deriving DecidableEq, Repr

/-- The `TokenService.validateAccessToken`, ported check for check in source
order: empty token, `validateTokenType(token, 'access')`,
`validateTokenAge`, then (after the concurrent user/record fetch)
user-not-found, email ownership, active/verified, record-not-found
(revoked), IP pinning, user-agent pinning.  The repository `findOne`
filter is `{user_id, access_token, revoked: false}`. -/
def validateAccessToken (now : Nat) (users : List User) (store : List AuthToken)
    (token : Token) (email : Option String)
    (currentIpAddress currentUserAgent : Option String) :
    Except TokenValidationResponse TokenValidationResponse :=
  if token = Token.empty then
    .error { user := none, is_valid := false, message := "Token is required.", user_status := none }
  else
    match validateTokenType now token (some TOKEN_TYPES_ACCESS) with
    | .error msg =>
      .error { user := none, is_valid := false, message := msg, user_status := none }
    | .ok payload =>
      let tokenAge := validateTokenAge now payload
      if tokenAge.isValid = false then
        .error { user := none, is_valid := false, message := tokenAge.message,
                 user_status := some { is_active := false, is_email_verified := false,
                                       token_status := "expired" } }
      else
        let user := findUserById users payload.id
        let tokenRecord := store.find? (fun r =>
          decide (r.user_id = payload.id ∧ r.access_token = token ∧ r.revoked = false))
        match user with
        | .error _ =>
          .error { user := none, is_valid := false, message := "User not found.",
                   user_status := some { is_active := false, is_email_verified := false,
                                         token_status := "valid" } }
        | .ok userValue =>
          let emailMismatch : Bool :=
            match email with
            | some e => decide (userValue.email ≠ e)
            | none => false
          if emailMismatch then
            .error { user := none, is_valid := false,
                     message := "Token ownership validation failed.",
                     user_status := some { is_active := userValue.is_active,
                                           is_email_verified := userValue.is_email_verified,
                                           token_status := "valid" } }
          else if userValue.is_active = false ∨ userValue.is_email_verified = false then
            .error { user := none, is_valid := false,
                     message := "User account is inactive or unverified.",
                     user_status := some { is_active := userValue.is_active,
                                           is_email_verified := userValue.is_email_verified,
                                           token_status := "valid" } }
          else
            match tokenRecord with
            | none =>
              .error { user := none, is_valid := false, message := "Token has been revoked.",
                       user_status := some { is_active := userValue.is_active,
                                             is_email_verified := userValue.is_email_verified,
                                             token_status := "revoked" } }
            | some record =>
              let ipMismatch : Bool :=
                match currentIpAddress with
                | some ip => !ALLOWED_IP_CHANGE && decide (record.ip_address ≠ ip)
                | none => false
              if ipMismatch then
                .error { user := none, is_valid := false,
                         message := "Token IP address mismatch.",
                         user_status := some { is_active := userValue.is_active,
                                               is_email_verified := userValue.is_email_verified,
                                               token_status := "invalid" } }
              else
                let uaMismatch : Bool :=
                  match currentUserAgent with
                  | some ua => !ALLOWED_USER_AGENT_CHANGE && decide (record.user_agent ≠ ua)
                  | none => false
                if uaMismatch then
                  .error { user := none, is_valid := false,
                           message := "Token user agent mismatch.",
                           user_status := some { is_active := userValue.is_active,
                                                 is_email_verified := userValue.is_email_verified,
                                                 token_status := "invalid" } }
                else
                  .ok { user := some userValue, is_valid := true, message := "Token valid.",
                        user_status := some { is_active := userValue.is_active,
                                              is_email_verified := userValue.is_email_verified,
                                              token_status := "valid" } }

/-- The `TokenService.validateRememberMeToken`: type check, record lookup
(`{user_id, remember_me_token, is_remember_me_token: true, revoked:
false}`), the stored `remember_me_expires_at` check (`new Date() >
remember_me_expires_at!`; a JS `null` coerces to `0`), then user lookup
and active/verified check. -/
def validateRememberMeToken (now : Nat) (users : List User) (store : List AuthToken)
    (remember_me_token : Token) : Except String (AuthToken × User) :=
  match validateTokenType now remember_me_token (some TOKEN_TYPES_REMEMBER_ME) with
  | .error e => .error e
  | .ok payload =>
    match store.find? (fun r =>
        decide (r.user_id = payload.id ∧ r.remember_me_token = some remember_me_token ∧
                r.is_remember_me_token = true ∧ r.revoked = false)) with
    | none => .error "Remember Me token is invalid or has been revoked."
    | some tokenRecord =>
      let expired : Bool :=
        match tokenRecord.remember_me_expires_at with
        | some t => decide (t < now)
        | none => decide (0 < now)
      if expired then .error "Remember Me token has expired."
      else
        match findUserById users payload.id with
        | .error _ => .error "User not found for Remember Me token."
        | .ok userValue =>
          if userValue.is_active = false ∨ userValue.is_email_verified = false then
            .error "User account is invalid or inactive."
          else .ok (tokenRecord, userValue)

/-- The `TokenService.validateRefreshToken`: type check with expected type
`refresh`, `validateTokenAge`, record lookup (`{user_id, refresh_token,
revoked: false}`), then user lookup and active/verified check. -/
def validateRefreshToken (now : Nat) (users : List User) (store : List AuthToken)
    (refresh_token : Token) : Except String (AuthToken × User) :=
  match validateTokenType now refresh_token (some TOKEN_TYPES_REFRESH) with
  | .error e => .error e
  | .ok payload =>
    if (validateTokenAge now payload).isValid = false then
      .error (validateTokenAge now payload).message
    else
      match store.find? (fun r =>
          decide (r.user_id = payload.id ∧ r.refresh_token = refresh_token ∧
                  r.revoked = false)) with
      | none => .error "Refresh token is invalid or has been revoked."
      | some tokenRecord =>
        match findUserById users payload.id with
        | .error _ => .error "User not found for refresh token."
        | .ok userValue =>
          if userValue.is_active = false ∨ userValue.is_email_verified = false then
            .error "User account is invalid or inactive."
          else .ok (tokenRecord, userValue)

/-- The `where` array of `TokenService.revokeUserTokens`: OR of
`{user_id, access_token}`, optionally `{user_id, refresh_token}` and
`{user_id, remember_me_token}` — with no `revoked` condition. -/
def revocationMatch (payload : TokenPayload) (access_token : Token)
    (refresh_token : Option Token) (remember_me_token : Option Token) (r : AuthToken) : Bool :=
  decide (r.user_id = payload.id ∧ r.access_token = access_token) ||
  (match refresh_token with
   | some rt => decide (r.user_id = payload.id ∧ r.refresh_token = rt)
   | none => false) ||
  (match remember_me_token with
   | some rmt => decide (r.user_id = payload.id ∧ r.remember_me_token = some rmt)
   | none => false)

/-- The `TokenService.revokeUserTokens`: structural validation of the access
token (no expected type), then `find` with the `revocationMatch`
conditions, erring with "No valid tokens found to revoke." when nothing
matches, else revoking every match in one transaction. -/
def revokeUserTokens (now : Nat) (store : List AuthToken) (access_token : Token)
    (refresh_token : Option Token) (remember_me_token : Option Token) :
    Except String (List AuthToken) :=
  match validateTokenType now access_token none with
  | .error e => .error e
  | .ok payload =>
    let tokensToRevoke :=
      store.filter (revocationMatch payload access_token refresh_token remember_me_token)
    if tokensToRevoke.length = 0 then .error "No valid tokens found to revoke."
    else .ok (revokeTokens now store tokensToRevoke)

/-- The `TokenService.revokeAllRememberMeTokens`: find the user's non-revoked
remember-me rows, revoke them when there are any, and return the success
message unconditionally. -/
def revokeAllRememberMeTokens (now : Nat) (store : List AuthToken) (userId : String) :
    Except String (List AuthToken × String) :=
  let tokens := store.filter (fun r =>
    decide (r.user_id = userId ∧ r.is_remember_me_token = true ∧ r.revoked = false))
  let store1 := if tokens.length > 0 then revokeTokens now store tokens else store
  .ok (store1, "All Remember Me tokens successfully revoked.")

/-- Response of `AuthService.login` / `refresh`. -/
structure TokenResponse where
  access_token : Token
  refresh_token : Token
  remember_me_token : Option Token
deriving DecidableEq, Repr

/-- The `AuthService.refresh`: validate the presented refresh token, create a
new record for the same user at the presented ip/user-agent, then in one
storage transaction save the new record and revoke the old one.  The
transaction is atomic, so the observable states are exactly the pre-state
and the returned post-state. -/
def refresh (now : Nat) (users : List User) (store : List AuthToken) (newId : Nat)
    (refresh_token : Token) (ipAddress userAgent : String) :
    Except String (List AuthToken × TokenResponse) :=
  match validateRefreshToken now users store refresh_token with
  | .error e => .error e
  | .ok (tokenRecord, user) =>
    let newTokenRecord := createTokenRecord now newId user.id ipAddress userAgent false 1
    let committed := (store ++ [newTokenRecord]).map (fun r =>
      if r.id = tokenRecord.id then { r with revoked := true, last_used_at := some now } else r)
    .ok (committed,
      { access_token := newTokenRecord.access_token,
        refresh_token := newTokenRecord.refresh_token,
        remember_me_token := none })

/-- Tail of `AuthService.login` once credentials have been accepted:
`createTokenRecord` followed by `save()` appends one fresh row. -/
def issueTokens (now : Nat) (store : List AuthToken) (newId : Nat)
    (userId ipAddress userAgent : String) (remember_me : Bool) :
    List AuthToken × AuthToken :=
  let tokenRecord := createTokenRecord now newId userId ipAddress userAgent remember_me 1
  (store ++ [tokenRecord], tokenRecord)

/-! ## Rate limiting layer -/

/-- The `IIPRecord` of `IRateLimit.ts`; `lastReset` in milliseconds. -/
structure IPRecord where
  ip : String
  requests : Nat
  lastReset : Nat
  isAuthenticated : Bool
  violations : Nat
deriving DecidableEq, Repr

/-- The `RateLimitConfig` passed to the adapters and middlewares. -/
structure RateLimitConfig where
  authenticatedLimit : Nat
  unauthenticatedLimit : Nat
  authWindowSeconds : Nat
  unauthWindowSeconds : Nat
deriving DecidableEq, Repr

/-- A Redis string value holding a serialized `IPRecord`, together with
the TTL deadline installed by `SET key value EX seconds`. -/
structure RedisEntry where
  record : IPRecord
  expiresAt : Nat
deriving DecidableEq, Repr

/-- The slice of Redis the `RedisRateLimitAdapter` touches: the
`rate-limit:<ip>` string keys and the `rate-limit:blacklist` set. -/
structure RedisState where
  records : List (String × RedisEntry)
  blacklist : List String
deriving DecidableEq, Repr

/-- The `getRecordKey`: `'rate-limit:' + ip`. -/
def recordKey (ip : String) : String := "rate-limit:" ++ ip

/-- The `redis.get` honouring the key's TTL. -/
def redisGet (now : Nat) (st : RedisState) (key : String) : Option IPRecord :=
  match st.records.find? (fun kv => decide (kv.1 = key)) with
  | none => none
  | some kv => if now < kv.2.expiresAt then some kv.2.record else none

/-- The `redis.set key value EX seconds`: replace or append. -/
def redisSet (st : RedisState) (key : String) (entry : RedisEntry) : RedisState :=
  if st.records.any (fun kv => decide (kv.1 = key)) then
    { st with records := st.records.map (fun kv => if kv.1 = key then (key, entry) else kv) }
  else
    { st with records := st.records ++ [(key, entry)] }

/-- The `sAdd` on the blacklist set. -/
def redisBlacklistAdd (st : RedisState) (ip : String) : RedisState :=
  if st.blacklist.any (fun b => decide (b = ip)) then st
  else { st with blacklist := st.blacklist ++ [ip] }

/-- The `sRem` on the blacklist set (`removeFromBlacklist`). -/
def redisBlacklistRemove (st : RedisState) (ip : String) : RedisState :=
  { st with blacklist := st.blacklist.filter (fun b => decide (b ≠ ip)) }

mutual

/-- The `RedisRateLimitAdapter.getRecord`: blacklist check first (throwing
"IP is blacklisted"), then fetch; when the record's window has elapsed it
calls `resetRecord` and re-reads.  `resetRecord` itself re-enters
`getRecord`, so this pair is genuinely mutually recursive in the source;
the fuel parameter makes the embedding total, `none` meaning the source
would not have returned. -/
def redisGetRecord (cfg : RateLimitConfig) :
    Nat → Nat → RedisState → String → Option (Except String (Option IPRecord × RedisState))
  | 0, _, _, _ => none
  | fuel + 1, now, st, ip =>
    if st.blacklist.any (fun b => decide (b = ip)) then some (.error "IP is blacklisted")
    else
      match redisGet now st (recordKey ip) with
      | none => some (.ok (none, st))
      | some parsed =>
        let timeWindow := if parsed.isAuthenticated then cfg.authWindowSeconds
                          else cfg.unauthWindowSeconds
        let windowAgo := now - timeWindow * 1000
        if parsed.lastReset < windowAgo then
          match redisResetRecord cfg fuel now st ip with
          | none => none
          | some (.error e) => some (.error e)
          | some (.ok st1) => some (.ok (redisGet now st1 (recordKey ip), st1))
        else some (.ok (some parsed, st))

/-- The `RedisRateLimitAdapter.resetRecord`: reads through `getRecord` (hence
inherits its blacklist error and window recursion), then zeroes
`requests` and `violations`, refreshes `lastReset` and rewrites the key
with `EX AUTH_WINDOW_SECONDS`. -/
def redisResetRecord (cfg : RateLimitConfig) :
    Nat → Nat → RedisState → String → Option (Except String RedisState)
  | 0, _, _, _ => none
  | fuel + 1, now, st, ip =>
    match redisGetRecord cfg fuel now st ip with
    | none => none
    | some (.error e) => some (.error e)
    | some (.ok (none, st1)) => some (.ok st1)
    | some (.ok (some record, st1)) =>
      some (.ok (redisSet st1 (recordKey ip)
        { record := { record with requests := 0, lastReset := now, violations := 0 },
          expiresAt := now + cfg.authWindowSeconds * 1000 }))

end

/-- The `RedisRateLimitAdapter.incrementRecord`: fetch-or-create, increment
`requests`, overwrite `isAuthenticated`, on `requests > limit` increment
`violations` and blacklist at `violations >= 3`, then write back with
`EX AUTH_WINDOW_SECONDS`. -/
def redisIncrementRecord (cfg : RateLimitConfig) (fuel now : Nat) (st : RedisState)
    (ip : String) (isAuthenticated : Bool) : Option (Except String RedisState) :=
  match redisGetRecord cfg fuel now st ip with
  | none => none
  | some (.error e) => some (.error e)
  | some (.ok (found, st1)) =>
    let record :=
      match found with
      | none => { ip := ip, requests := 0, lastReset := now,
                  isAuthenticated := isAuthenticated, violations := 0 : IPRecord }
      | some r => r
    let record := { record with requests := record.requests + 1,
                                isAuthenticated := isAuthenticated }
    let limit := if isAuthenticated then cfg.authenticatedLimit else cfg.unauthenticatedLimit
    let record := if limit < record.requests then
                    { record with violations := record.violations + 1 }
                  else record
    let st2 := if limit < record.requests ∧ 3 ≤ record.violations then
                 redisBlacklistAdd st1 ip
               else st1
    some (.ok (redisSet st2 (recordKey ip)
      { record := record, expiresAt := now + cfg.authWindowSeconds * 1000 }))

/-- State of the file-backed `RateLimitAdapter`: the `records` map and the
`blacklist` set (their file mirror carries no extra observable state). -/
structure FileState where
  records : List (String × IPRecord)
  blacklist : List String
deriving DecidableEq, Repr

/-- The `Map.set` on the records map. -/
def fileSet (st : FileState) (ip : String) (record : IPRecord) : FileState :=
  if st.records.any (fun kv => decide (kv.1 = ip)) then
    { st with records := st.records.map (fun kv => if kv.1 = ip then (ip, record) else kv) }
  else
    { st with records := st.records ++ [(ip, record)] }

/-- File-backed `resetRecord`: reads the map directly (no blacklist
check, unlike the Redis backend), zeroes counters and refreshes
`lastReset` when a record exists. -/
def fileResetRecord (now : Nat) (st : FileState) (ip : String) : FileState :=
  match st.records.find? (fun kv => decide (kv.1 = ip)) with
  | none => st
  | some kv =>
    fileSet st ip { kv.2 with requests := 0, lastReset := now, violations := 0 }

/-- File-backed `getRecord`: blacklist check (throwing "IP is
blacklisted"), then window-elapse reset-in-place and re-read. -/
def fileGetRecord (cfg : RateLimitConfig) (now : Nat) (st : FileState) (ip : String) :
    Except String (Option IPRecord × FileState) :=
  if st.blacklist.any (fun b => decide (b = ip)) then .error "IP is blacklisted"
  else
    match st.records.find? (fun kv => decide (kv.1 = ip)) with
    | none => .ok (none, st)
    | some kv =>
      let record := kv.2
      let timeWindow := if record.isAuthenticated then cfg.authWindowSeconds
                        else cfg.unauthWindowSeconds
      let windowAgo := now - timeWindow * 1000
      if record.lastReset < windowAgo then
        let st1 := fileResetRecord now st ip
        .ok ((st1.records.find? (fun kv => decide (kv.1 = ip))).map (fun kv => kv.2), st1)
      else .ok (some record, st)

/-- File-backed `incrementRecord` (same violation/blacklist logic as the
Redis backend, no TTL). -/
def fileIncrementRecord (cfg : RateLimitConfig) (now : Nat) (st : FileState)
    (ip : String) (isAuthenticated : Bool) : Except String FileState :=
  match fileGetRecord cfg now st ip with
  | .error e => .error e
  | .ok (found, st1) =>
    let record :=
      match found with
      | none => { ip := ip, requests := 0, lastReset := now,
                  isAuthenticated := isAuthenticated, violations := 0 : IPRecord }
      | some r => r
    let record := { record with requests := record.requests + 1,
                                isAuthenticated := isAuthenticated }
    let limit := if isAuthenticated then cfg.authenticatedLimit else cfg.unauthenticatedLimit
    let record := if limit < record.requests then
                    { record with violations := record.violations + 1 }
                  else record
    let st2 := if limit < record.requests ∧ 3 ≤ record.violations then
                 (if st1.blacklist.any (fun b => decide (b = ip)) then st1
                  else { st1 with blacklist := st1.blacklist ++ [ip] })
               else st1
    .ok (fileSet st2 ip record)

/-- File-backed `addToBlacklist` (a `Set`, so adding is idempotent). -/
def fileBlacklistAdd (st : FileState) (ip : String) : FileState :=
  if st.blacklist.any (fun b => decide (b = ip)) then st
  else { st with blacklist := st.blacklist ++ [ip] }

/-- File-backed `removeFromBlacklist`. -/
def fileBlacklistRemove (st : FileState) (ip : String) : FileState :=
  { st with blacklist := st.blacklist.filter (fun b => decide (b ≠ ip)) }

/-! ## Rate limit middleware -/

/-- The `Math.ceil(x / y)` on JS numbers, for positive `y`. -/
def jsCeilDiv (x : Int) (y : Int) : Int := -((-x).fdiv y)

/-- The `calculateResetTime`: `Math.ceil((lastReset + window*1000) / 1000)`
(epoch seconds). -/
def calculateResetTime (lastReset : Nat) (windowSeconds : Nat) : Nat :=
  (lastReset + windowSeconds * 1000 + 999) / 1000

/-- What the middleware does to the reply:
* `tooMany`: 429 with `X-RateLimit-Limit`, `X-RateLimit-Remaining: 0`,
  `X-RateLimit-Reset`, `Retry-After`, short-circuiting the request;
* `blacklistDenied`: 403 "Access Denied" (distinct from quota
  exhaustion), short-circuiting;
* `serverError`: 500 "Rate limit service unavailable", short-circuiting;
* `allowed`: quota headers (limit, remaining, reset) attached and the
  request proceeds to the downstream handler. -/
inductive RLOutcome where
  | tooMany (limit : Nat) (remaining : Nat) (reset : Nat) (retryAfter : Int)
  | blacklistDenied
  | serverError
  | allowed (headers : Option (Nat × Int × Nat))
deriving DecidableEq, Repr

/-- The Redis-variant middleware's inner `catch`: the "IP is blacklisted"
error maps to the 403 access-denied reply, every other storage error is
logged and rethrown to the outer `catch`, which replies 500. -/
def redisHandleStorageError (e : String) : RLOutcome :=
  if e = "IP is blacklisted" then .blacklistDenied else .serverError

/-- Redis-variant `RateLimitMiddleware.checkRateLimit`: select
`(limit, window)` by classification, fetch the record, block with 429
when `requests >= limit`, otherwise increment and attach quota headers
(`remaining = limit - requests` after re-reading).  Storage errors are
turned into a 403 (blacklist) or 500 reply; in every storage-failure case
a reply is sent, so the downstream handler does not run. -/
def redisCheckRateLimit (cfg : RateLimitConfig) (fuel now : Nat) (st : RedisState)
    (ip : String) (isAuthenticated : Bool) : Option (RLOutcome × RedisState) :=
  let limit := if isAuthenticated then cfg.authenticatedLimit else cfg.unauthenticatedLimit
  let windowSeconds := if isAuthenticated then cfg.authWindowSeconds else cfg.unauthWindowSeconds
  match redisGetRecord cfg fuel now st ip with
  | none => none
  | some (.error e) => some (redisHandleStorageError e, st)
  | some (.ok (found, st1)) =>
    let blocked : Bool :=
      match found with
      | some record => decide (limit ≤ record.requests)
      | none => false
    match found, blocked with
    | some record, true =>
      some (.tooMany limit 0 (calculateResetTime record.lastReset windowSeconds)
              (jsCeilDiv ((record.lastReset : Int) + (windowSeconds : Int) * 1000 - (now : Int)) 1000),
            st1)
    | _, _ =>
      match redisIncrementRecord cfg fuel now st1 ip isAuthenticated with
      | none => none
      | some (.error e) => some (redisHandleStorageError e, st1)
      | some (.ok st2) =>
        match redisGetRecord cfg fuel now st2 ip with
        | none => none
        | some (.error e) => some (redisHandleStorageError e, st2)
        | some (.ok (current, st3)) =>
          match current with
          | none => some (.allowed none, st3)
          | some record =>
            some (.allowed (some (limit, (limit : Int) - (record.requests : Int),
                                  calculateResetTime record.lastReset windowSeconds)),
                  st3)

/-- File-variant `RateLimitMiddleware.checkRateLimit` (the variant backed
by the file adapter): same blocking/increment/header logic, but its only
error handling is one outer `catch` that logs and sends nothing, so any
storage error — including "IP is blacklisted" — lets the request continue
to the downstream handler with no reply and no rate limiting applied
(`none` outcome). -/
def fileCheckRateLimit (cfg : RateLimitConfig) (now : Nat) (st : FileState)
    (ip : String) (isAuthenticated : Bool) : Option RLOutcome × FileState :=
  let limit := if isAuthenticated then cfg.authenticatedLimit else cfg.unauthenticatedLimit
  let windowSeconds := if isAuthenticated then cfg.authWindowSeconds else cfg.unauthWindowSeconds
  match fileGetRecord cfg now st ip with
  | .error _ => (none, st)
  | .ok (found, st1) =>
    let blocked : Bool :=
      match found with
      | some record => decide (limit ≤ record.requests)
      | none => false
    match found, blocked with
    | some record, true =>
      (some (.tooMany limit 0 (calculateResetTime record.lastReset windowSeconds)
               (jsCeilDiv ((record.lastReset : Int) + (windowSeconds : Int) * 1000 - (now : Int)) 1000)),
       st1)
    | _, _ =>
      match fileIncrementRecord cfg now st1 ip isAuthenticated with
      | .error _ => (none, st1)
      | .ok st2 =>
        match fileGetRecord cfg now st2 ip with
        | .error _ => (none, st2)
        | .ok (current, st3) =>
          match current with
          | none => (some (.allowed none), st3)
          | some record =>
            (some (.allowed (some (limit, (limit : Int) - (record.requests : Int),
                                   calculateResetTime record.lastReset windowSeconds))),
             st3)

/-- C2 counterexample: a store whose only row matches the supplied access
token but is already revoked.  Zero currently non-revoked records match,
yet `revokeUserTokens` does not return the no-tokens error (its query has
no `revoked: false` condition): it succeeds, re-saving the revoked row. -/
def c2Payload : TokenPayload := { id := "u1", type := "access", iat := 5000, exp := 7700 }

def c2Token : Token := Token.signed c2Payload

def c2Record : AuthToken :=
  { id := 7, user_id := "u1", access_token := c2Token,
    refresh_token := Token.malformed "r", ip_address := "ip", user_agent := "ua",
    revoked := true, remember_me_token := none, is_remember_me_token := false,
    remember_me_expires_at := none, token_version := none, last_used_at := none }

/-- Spec-side definition of `validateAccess`, written from the spec's
numbered check list (1. empty, 2. verify with expected type `access`,
3. token age, 4./5. user lookup, 6. email ownership, 7. active/verified,
8. non-revoked record, 9. IP pinning, 10. user-agent pinning, 11. Ok),
each failure short-circuiting.  It is compared with the source-side
`validateAccessToken` for the order claim. -/
def specValidateAccess (now : Nat) (users : List User) (store : List AuthToken)
    (token : Token) (email : Option String)
    (currentIpAddress currentUserAgent : Option String) :
    Except TokenValidationResponse TokenValidationResponse :=
  -- 1. empty token
  if token = Token.empty then
    .error { user := none, is_valid := false, message := "Token is required.", user_status := none }
  else
    -- 2. codec verify with expected type `access`
    match validateTokenType now token (some TOKEN_TYPES_ACCESS) with
    | .error msg =>
      .error { user := none, is_valid := false, message := msg, user_status := none }
    | .ok payload =>
      -- 3. token age, before any user/store lookup
      let tokenAge := validateTokenAge now payload
      if tokenAge.isValid = false then
        .error { user := none, is_valid := false, message := tokenAge.message,
                 user_status := some { is_active := false, is_email_verified := false,
                                       token_status := "expired" } }
      else
        -- 4. fetch user and matching non-revoked record
        let user := findUserById users payload.id
        let tokenRecord := store.find? (fun r =>
          decide (r.user_id = payload.id ∧ r.access_token = token ∧ r.revoked = false))
        match user with
        -- 5. user not found
        | .error _ =>
          .error { user := none, is_valid := false, message := "User not found.",
                   user_status := some { is_active := false, is_email_verified := false,
                                         token_status := "valid" } }
        | .ok userValue =>
          -- 6. email ownership
          let emailMismatch : Bool :=
            match email with
            | some e => decide (userValue.email ≠ e)
            | none => false
          if emailMismatch then
            .error { user := none, is_valid := false,
                     message := "Token ownership validation failed.",
                     user_status := some { is_active := userValue.is_active,
                                           is_email_verified := userValue.is_email_verified,
                                           token_status := "valid" } }
          -- 7. active/verified account
          else if userValue.is_active = false ∨ userValue.is_email_verified = false then
            .error { user := none, is_valid := false,
                     message := "User account is inactive or unverified.",
                     user_status := some { is_active := userValue.is_active,
                                           is_email_verified := userValue.is_email_verified,
                                           token_status := "valid" } }
          else
            match tokenRecord with
            -- 8. no matching non-revoked record
            | none =>
              .error { user := none, is_valid := false, message := "Token has been revoked.",
                       user_status := some { is_active := userValue.is_active,
                                             is_email_verified := userValue.is_email_verified,
                                             token_status := "revoked" } }
            | some record =>
              -- 9. IP pinning, reported before the device check
              let ipMismatch : Bool :=
                match currentIpAddress with
                | some ip => !ALLOWED_IP_CHANGE && decide (record.ip_address ≠ ip)
                | none => false
              if ipMismatch then
                .error { user := none, is_valid := false,
                         message := "Token IP address mismatch.",
                         user_status := some { is_active := userValue.is_active,
                                               is_email_verified := userValue.is_email_verified,
                                               token_status := "invalid" } }
              else
                -- 10. user-agent pinning
                let uaMismatch : Bool :=
                  match currentUserAgent with
                  | some ua => !ALLOWED_USER_AGENT_CHANGE && decide (record.user_agent ≠ ua)
                  | none => false
                if uaMismatch then
                  .error { user := none, is_valid := false,
                           message := "Token user agent mismatch.",
                           user_status := some { is_active := userValue.is_active,
                                                 is_email_verified := userValue.is_email_verified,
                                                 token_status := "invalid" } }
                else
                  -- 11. all checks passed
                  .ok { user := some userValue, is_valid := true, message := "Token valid.",
                        user_status := some { is_active := userValue.is_active,
                                              is_email_verified := userValue.is_email_verified,
                                              token_status := "valid" } }

/-- The distinct messages of the thirteen possible `validateAccessToken`
outcomes, in check order. -/
def accessOutcomeMessages : List String :=
  ["Token is required.", "Invalid token format.", "Token has expired.",
   "Invalid token type. Expected: access", "Token issue time not found.",
   "Token has exceeded maximum age of 30 days.", "User not found.",
   "Token ownership validation failed.", "User account is inactive or unverified.",
   "Token has been revoked.", "Token IP address mismatch.",
   "Token user agent mismatch.", "Token valid."]

/-- A validator's view used for the rotation claim: is some non-revoked
record carrying this refresh token for this user visible in the store? -/
def activeRefreshTokenVisible (store : List AuthToken) (uid : String) (t : Token) : Bool :=
  store.any (fun r => decide (r.user_id = uid ∧ r.refresh_token = t ∧ r.revoked = false))

def c1Payload : TokenPayload := { id := "u1", type := "refresh", iat := 4000, exp := 608800 }

def c1User : User := { id := "u1", email := "a@b.c", is_active := true, is_email_verified := true }

def c1OldRecord : AuthToken :=
  { id := 1, user_id := "u1", access_token := Token.malformed "a",
    refresh_token := Token.signed c1Payload, ip_address := "1.1.1.1", user_agent := "ua",
    revoked := false, remember_me_token := none, is_remember_me_token := false,
    remember_me_expires_at := none, token_version := none, last_used_at := none }

def c6Cfg : RateLimitConfig :=
  { authenticatedLimit := 5, unauthenticatedLimit := 5,
    authWindowSeconds := 60, unauthWindowSeconds := 60 }

def c6RedisSt1 : RedisState :=
  { records := [("rate-limit:1.2.3.4",
      { record := { ip := "1.2.3.4", requests := 1, lastReset := 1000000,
                    isAuthenticated := false, violations := 0 },
        expiresAt := 1060000 })],
    blacklist := [] }

def c6FileSt1 : FileState :=
  { records := [("1.2.3.4",
      { ip := "1.2.3.4", requests := 1, lastReset := 1000000,
        isAuthenticated := false, violations := 0 })],
    blacklist := [] }

/-- The `(limit, window)` selection the middleware performs from the
request's authentication classification. -/
def applicableLimit (cfg : RateLimitConfig) (isAuthenticated : Bool) : Nat :=
  if isAuthenticated then cfg.authenticatedLimit else cfg.unauthenticatedLimit

def applicableWindow (cfg : RateLimitConfig) (isAuthenticated : Bool) : Nat :=
  if isAuthenticated then cfg.authWindowSeconds else cfg.unauthWindowSeconds

/-- The store state an IP reaches after `i` in-window requests from a
fresh start: one record with `requests = i`, window started at `now`,
no violations, TTL refreshed by the last write. -/
def c7State (cfg : RateLimitConfig) (now : Nat) (ip : String) (isAuth : Bool)
    (i : Nat) : RedisState :=
  { records := [(recordKey ip,
      { record := { ip := ip, requests := i, lastReset := now,
                    isAuthenticated := isAuth, violations := 0 },
        expiresAt := now + cfg.authWindowSeconds * 1000 })],
    blacklist := [] }

def c7Cfg : RateLimitConfig :=
  { authenticatedLimit := 2, unauthenticatedLimit := 2,
    authWindowSeconds := 60, unauthWindowSeconds := 60 }

def c9Cfg : RateLimitConfig :=
  { authenticatedLimit := 20, unauthenticatedLimit := 0,
    authWindowSeconds := 60, unauthWindowSeconds := 60 }

/-- The family of states an IP that only ever goes through the middleware
under one classification can occupy: one record with `violations = 0`
and an empty blacklist. -/
def c9State (ip : String) (isAuth : Bool) (i t0 te : Nat) : RedisState :=
  { records := [(recordKey ip,
      { record := { ip := ip, requests := i, lastReset := t0,
                    isAuthenticated := isAuth, violations := 0 },
        expiresAt := te })],
    blacklist := [] }

/-! ## Theorems -/

/-- C5: a remember-me token that is cryptographically valid (signed,
correct type, unexpired) and whose non-revoked record is found, but whose
stored `remember_me_expires_at` lies in the past, is rejected with the
remember-me-expired error — dual expiry.  The outcome holds for every
user directory because the expiry check precedes the user lookup. -/
theorem validateRememberMe_dual_expiry
    (now : Nat) (users : List User) (store : List AuthToken)
    (p : TokenPayload) (rec : AuthToken) (t : Nat)
    (hid : p.id ≠ "") (hty : p.type = TOKEN_TYPES_REMEMBER_ME)
    (hexp : now / 1000 < p.exp)
    (hfind : store.find? (fun r =>
        decide (r.user_id = p.id ∧ r.remember_me_token = some (Token.signed p) ∧
                r.is_remember_me_token = true ∧ r.revoked = false)) = some rec)
    (hstored : rec.remember_me_expires_at = some t)
    (hpast : t < now) :
    validateRememberMeToken now users store (Token.signed p)
      = .error "Remember Me token has expired." := by
  have h1 : ¬ p.exp ≤ now / 1000 := Nat.not_le_of_lt hexp
  simp only [validateRememberMeToken, validateTokenType, jwtVerify]
  simp [h1, hid, hty]
  simp at hfind
  rw [hfind]
  simp [hstored, hpast]

/-- C5 witness: a concrete instantiation of the dual-expiry theorem. -/
theorem validateRememberMe_dual_expiry_witness :
    validateRememberMeToken 10000000 [] [{
          id := 1, user_id := "u1",
          access_token := Token.malformed "a", refresh_token := Token.malformed "r",
          ip_address := "1.1.1.1", user_agent := "ua", revoked := false,
          remember_me_token := some (Token.signed {
              id := "u1", type := "remember_me", iat := 9000, exp := 1219000 }),
          is_remember_me_token := true, remember_me_expires_at := some 9999999,
          token_version := some 1, last_used_at := none }]
      (Token.signed { id := "u1", type := "remember_me", iat := 9000, exp := 1219000 })
      = .error "Remember Me token has expired." :=
  validateRememberMe_dual_expiry 10000000 [] _ _ _ 9999999
    (by decide) rfl (by decide) rfl rfl (by decide)

/-- C10: `revokeAllRememberMeTokens` succeeds with the fixed success
message even when the user has zero non-revoked remember-me records (the
store is returned unchanged), whereas `revokeUserTokens` with an empty
match set (here: an empty store) fails with the no-tokens error. -/
theorem revokeAllRememberMeTokens_ok_on_empty_match
    (now : Nat) (store : List AuthToken) (userId : String)
    (hra : ∀ r ∈ store,
      ¬(r.user_id = userId ∧ r.is_remember_me_token = true ∧ r.revoked = false))
    (tok : Token) (payload : TokenPayload)
    (hval : validateTokenType now tok none = .ok payload) :
    revokeAllRememberMeTokens now store userId
        = .ok (store, "All Remember Me tokens successfully revoked.")
      ∧ revokeUserTokens now [] tok none none
        = .error "No valid tokens found to revoke." := by
  constructor
  · unfold revokeAllRememberMeTokens
    have hf : store.filter (fun r =>
        decide (r.user_id = userId) && (r.is_remember_me_token && !r.revoked)) = [] :=
      List.filter_eq_nil_iff.2 (fun a ha => by simpa using hra a ha)
    simp [hf]
  · unfold revokeUserTokens
    rw [hval]
    simp

/-- If the store's primary keys are distinct, revoking the rows selected
by a filter updates exactly the rows satisfying the filter. -/
theorem revokeTokens_filter_eq (now : Nat) (store : List AuthToken) (q : AuthToken → Bool)
    (hids : (store.map (fun r => r.id)).Nodup) :
    revokeTokens now store (store.filter q)
      = store.map (fun r =>
          if q r then { r with revoked := true, last_used_at := some now } else r) := by
  unfold revokeTokens
  apply List.map_congr_left
  intro r hr
  by_cases hq : q r
  · have hany : (store.filter q).any (fun t => t.id == r.id) = true :=
      List.any_eq_true.2 ⟨r, List.mem_filter.2 ⟨hr, hq⟩, by simp⟩
    simp [hany, hq]
  · have hany : (store.filter q).any (fun t => t.id == r.id) = false := by
      rw [List.any_eq_false]
      intro t ht
      have htst := List.mem_filter.1 ht
      intro hbeq
      have hid : t.id = r.id := by simpa using hbeq
      have : t = r := List.inj_on_of_nodup_map hids htst.1 hr hid
      exact hq (this ▸ htst.2)
    simp [hany, hq]

/-- C2 is false as stated: with the store `[c2Record]` no currently
non-revoked record matches the supplied token values, but
`revokeUserTokens` returns `Ok` instead of the no-tokens error. -/
theorem revokeUserTokens_nonrevoked_counterexample :
    (∀ r ∈ [c2Record],
      ¬(r.revoked = false ∧ revocationMatch c2Payload c2Token none none r = true))
    ∧ revokeUserTokens 5000000 [c2Record] c2Token none none
        = .ok [{ c2Record with revoked := true, last_used_at := some 5000000 }] :=
  ⟨by decide, rfl⟩

/-- C2 amended: `revokeUserTokens` (given a structurally valid access
token and distinct primary keys) errs with the no-tokens error iff zero
records of that user match any supplied token value *regardless of their
revocation status*; otherwise it marks revoked exactly the matching
records (already-revoked matches are re-saved unchanged apart from
`last_used_at`). -/
theorem revokeUserTokens_matching_semantics
    (now : Nat) (store : List AuthToken) (access_token : Token)
    (rt rmt : Option Token) (payload : TokenPayload)
    (hval : validateTokenType now access_token none = .ok payload)
    (hids : (store.map (fun r => r.id)).Nodup) :
    (revokeUserTokens now store access_token rt rmt
        = .error "No valid tokens found to revoke."
      ↔ ∀ r ∈ store, revocationMatch payload access_token rt rmt r = false)
    ∧ ((∃ r ∈ store, revocationMatch payload access_token rt rmt r = true) →
        revokeUserTokens now store access_token rt rmt
          = .ok (store.map (fun r =>
              if revocationMatch payload access_token rt rmt r then
                { r with revoked := true, last_used_at := some now }
              else r))) := by
  unfold revokeUserTokens
  rw [hval]
  constructor
  · by_cases hf : store.filter (revocationMatch payload access_token rt rmt) = []
    · simp only [hf]
      simp only [List.length_nil, if_pos rfl]
      constructor
      · intro _ r hr
        have := List.filter_eq_nil_iff.1 hf r hr
        simpa using this
      · intro _
        rfl
    · have hlen : (store.filter (revocationMatch payload access_token rt rmt)).length ≠ 0 := by
        simpa [List.length_eq_zero] using hf
      simp only [if_neg hlen]
      constructor
      · intro h
        exact absurd h (by simp)
      · intro hall
        exact absurd (List.filter_eq_nil_iff.2 (fun a ha => by simp [hall a ha])) hf
  · intro ⟨r, hr, hq⟩
    have hne : store.filter (revocationMatch payload access_token rt rmt) ≠ [] := by
      rw [ne_eq, List.filter_eq_nil_iff]
      push_neg
      exact ⟨r, hr, by simp [hq]⟩
    have hlen : (store.filter (revocationMatch payload access_token rt rmt)).length ≠ 0 := by
      simpa [List.length_eq_zero] using hne
    simp only [if_neg hlen]
    rw [revokeTokens_filter_eq now store _ hids]

/-- C2 amended witness: one non-revoked matching record gets revoked. -/
theorem revokeUserTokens_matching_semantics_witness :
    revokeUserTokens 5000000
        [{ c2Record with revoked := false }] c2Token none none
      = .ok [{ c2Record with revoked := true, last_used_at := some 5000000 }] := by
  have h := revokeUserTokens_matching_semantics 5000000
    [{ c2Record with revoked := false }] c2Token none none c2Payload rfl (by decide)
  rw [h.2 ⟨{ c2Record with revoked := false }, by decide, by decide⟩]
  rfl

/-- Success characterization of `validateAccessToken`: when every check
of the source's chain passes, the outcome is `Ok` with the found user and
a `valid` status. -/
theorem validateAccessToken_ok_of
    (now : Nat) (users : List User) (store : List AuthToken) (p : TokenPayload)
    (u : User) (rec : AuthToken) (ip ua : String)
    (hp1 : p.id ≠ "") (hp2 : p.type = TOKEN_TYPES_ACCESS)
    (hexp : now / 1000 < p.exp) (hiat : p.iat ≠ 0)
    (hage : ¬(MAX_TOKEN_AGE_DAYS * 24 * 60 * 60 * 1000 < now - p.iat * 1000))
    (huser : findUserById users p.id = .ok u)
    (hactive : u.is_active = true) (hverified : u.is_email_verified = true)
    (hfind : store.find? (fun r =>
        decide (r.user_id = p.id ∧ r.access_token = Token.signed p ∧ r.revoked = false))
      = some rec)
    (hip : rec.ip_address = ip) (hua : rec.user_agent = ua) :
    validateAccessToken now users store (Token.signed p) none (some ip) (some ua)
      = .ok { user := some u, is_valid := true, message := "Token valid.",
              user_status := some { is_active := true, is_email_verified := true,
                                    token_status := "valid" } } := by
  have h1 : ¬ p.exp ≤ now / 1000 := Nat.not_le_of_lt hexp
  simp only [validateAccessToken, validateTokenType, jwtVerify, validateTokenAge]
  simp at hfind
  simp [h1, hp1, hp2, hiat, hage, huser, hactive, hverified, hfind, hip, hua,
    ALLOWED_IP_CHANGE, ALLOWED_USER_AGENT_CHANGE]

/-- C4: for a user that exists, is active and is email-verified, issuing
a token set for `(user, ip, user_agent)` (the persisted record of
`login`) and immediately validating the resulting access token with the
same ip and user agent yields `Ok` with that user and a `valid`
token status.  `hfresh` is the store invariant that the freshly signed
access token does not already occur, `hnow` keeps the JWT `iat` nonzero
and `hid` the JWT subject non-falsy. -/
theorem issue_then_validateAccess_ok
    (now : Nat) (users : List User) (store : List AuthToken) (newId : Nat)
    (uid ip ua : String) (remember : Bool) (u : User)
    (hnow : 1000 ≤ now) (hid : uid ≠ "")
    (huser : findUserById users uid = .ok u)
    (hactive : u.is_active = true) (hverified : u.is_email_verified = true)
    (hfresh : ∀ r ∈ store, r.access_token ≠ generateAccessToken now uid) :
    validateAccessToken now users (issueTokens now store newId uid ip ua remember).1
        (issueTokens now store newId uid ip ua remember).2.access_token
        none (some ip) (some ua)
      = .ok { user := some u, is_valid := true, message := "Token valid.",
              user_status := some { is_active := true, is_email_verified := true,
                                    token_status := "valid" } } := by
  have hiat : ¬(now / 1000 = 0) := by omega
  have hage : ¬(MAX_TOKEN_AGE_DAYS * 24 * 60 * 60 * 1000 < now - now / 1000 * 1000) := by
    unfold MAX_TOKEN_AGE_DAYS
    omega
  have hrec : (issueTokens now store newId uid ip ua remember).2.access_token
      = generateAccessToken now uid := by
    cases remember <;> simp [issueTokens, createTokenRecord]
  have hmem : (issueTokens now store newId uid ip ua remember).1
      = store ++ [(issueTokens now store newId uid ip ua remember).2] := by
    simp [issueTokens]
  have hprops : (issueTokens now store newId uid ip ua remember).2.user_id = uid
      ∧ (issueTokens now store newId uid ip ua remember).2.revoked = false
      ∧ (issueTokens now store newId uid ip ua remember).2.ip_address = ip
      ∧ (issueTokens now store newId uid ip ua remember).2.user_agent = ua := by
    cases remember <;> simp [issueTokens, createTokenRecord]
  have hnone : store.find? (fun r =>
      decide (r.user_id = uid ∧ r.access_token = Token.signed
        { id := uid, type := TOKEN_TYPES_ACCESS, iat := now / 1000,
          exp := now / 1000 + 45 * 60 } ∧ r.revoked = false)) = none := by
    apply List.find?_eq_none.2
    intro r hr
    simp only [decide_eq_true_eq, not_and]
    intro _ hacc
    exact absurd hacc (by simpa [generateAccessToken] using hfresh r hr)
  have hfind : ((issueTokens now store newId uid ip ua remember).1).find? (fun r =>
      decide (r.user_id = uid ∧ r.access_token = Token.signed
        { id := uid, type := TOKEN_TYPES_ACCESS, iat := now / 1000,
          exp := now / 1000 + 45 * 60 } ∧ r.revoked = false))
      = some (issueTokens now store newId uid ip ua remember).2 := by
    rw [hmem, List.find?_append, hnone]
    simp only [Option.none_or]
    rw [List.find?_cons]
    have hdec : decide ((issueTokens now store newId uid ip ua remember).2.user_id = uid ∧
        (issueTokens now store newId uid ip ua remember).2.access_token = Token.signed
          { id := uid, type := TOKEN_TYPES_ACCESS, iat := now / 1000,
            exp := now / 1000 + 45 * 60 } ∧
        (issueTokens now store newId uid ip ua remember).2.revoked = false) = true := by
      simp only [decide_eq_true_eq]
      exact ⟨hprops.1, by simpa [generateAccessToken] using hrec, hprops.2.1⟩
    simp only [hdec]
  rw [hrec]
  show validateAccessToken now users _ (Token.signed
    { id := uid, type := TOKEN_TYPES_ACCESS, iat := now / 1000,
      exp := now / 1000 + 45 * 60 }) none (some ip) (some ua) = _
  exact validateAccessToken_ok_of now users _
    { id := uid, type := TOKEN_TYPES_ACCESS, iat := now / 1000, exp := now / 1000 + 45 * 60 }
    u _ ip ua hid rfl (by show now / 1000 < now / 1000 + 45 * 60; omega) hiat hage
    huser hactive hverified hfind
    hprops.2.2.1 hprops.2.2.2

/-- C4 witness: a concrete issue-then-validate round trip. -/
theorem issue_then_validateAccess_ok_witness :
    validateAccessToken 5000000
        [{ id := "u1", email := "e@x", is_active := true, is_email_verified := true }]
        (issueTokens 5000000 [] 3 "u1" "9.9.9.9" "agent" false).1
        (issueTokens 5000000 [] 3 "u1" "9.9.9.9" "agent" false).2.access_token
        none (some "9.9.9.9") (some "agent")
      = .ok { user := some { id := "u1", email := "e@x", is_active := true,
                             is_email_verified := true },
              is_valid := true, message := "Token valid.",
              user_status := some { is_active := true, is_email_verified := true,
                                    token_status := "valid" } } :=
  issue_then_validateAccess_ok 5000000
    [{ id := "u1", email := "e@x", is_active := true, is_email_verified := true }]
    [] 3 "u1" "9.9.9.9" "agent" false
    { id := "u1", email := "e@x", is_active := true, is_email_verified := true }
    (by omega) (by decide) rfl rfl rfl (by simp)

/-- Success characterization of `validateRefreshToken`. -/
theorem validateRefreshToken_ok_of
    (now : Nat) (users : List User) (store : List AuthToken) (p : TokenPayload)
    (rec : AuthToken) (user : User)
    (hp1 : p.id ≠ "") (hp2 : p.type = TOKEN_TYPES_REFRESH)
    (hexp : now / 1000 < p.exp) (hiat : p.iat ≠ 0)
    (hage : ¬(MAX_TOKEN_AGE_DAYS * 24 * 60 * 60 * 1000 < now - p.iat * 1000))
    (hfind : store.find? (fun r =>
        decide (r.user_id = p.id ∧ r.refresh_token = Token.signed p ∧ r.revoked = false))
      = some rec)
    (huser : findUserById users p.id = .ok user)
    (hactive : user.is_active = true) (hverified : user.is_email_verified = true) :
    validateRefreshToken now users store (Token.signed p) = .ok (rec, user) := by
  have h1 : ¬ p.exp ≤ now / 1000 := Nat.not_le_of_lt hexp
  simp only [validateRefreshToken, validateTokenType, jwtVerify, validateTokenAge]
  simp at hfind
  simp [h1, hp1, hp2, hiat, hage, hfind, huser, hactive, hverified]

/-- Revocation characterization of `validateRefreshToken`: a token whose
checks pass but whose non-revoked record is absent yields the revoked
error. -/
theorem validateRefreshToken_err_of_none
    (now : Nat) (users : List User) (store : List AuthToken) (p : TokenPayload)
    (hp1 : p.id ≠ "") (hp2 : p.type = TOKEN_TYPES_REFRESH)
    (hexp : now / 1000 < p.exp) (hiat : p.iat ≠ 0)
    (hage : ¬(MAX_TOKEN_AGE_DAYS * 24 * 60 * 60 * 1000 < now - p.iat * 1000))
    (hnone : store.find? (fun r =>
        decide (r.user_id = p.id ∧ r.refresh_token = Token.signed p ∧ r.revoked = false))
      = none) :
    validateRefreshToken now users store (Token.signed p)
      = .error "Refresh token is invalid or has been revoked." := by
  have h1 : ¬ p.exp ≤ now / 1000 := Nat.not_le_of_lt hexp
  have hnone2 : store.find? (fun r =>
      decide (r.user_id = p.id) && (decide (r.refresh_token = Token.signed p) && !r.revoked))
      = none := by
    apply List.find?_eq_none.2
    intro x hx
    have := List.find?_eq_none.1 hnone x hx
    simpa using this
  simp only [validateRefreshToken, validateTokenType, jwtVerify, validateTokenAge]
  simp [h1, hp1, hp2, hiat, hage, hnone2]

/-- C1: rotating a refresh token that validates successfully commits, in
a single transaction, a state in which the old refresh token fails
validation with the revoked error while the freshly issued one validates
`Ok`; and neither the pre-state nor the committed post-state ever makes
the old and the new refresh token simultaneously visible as non-revoked
records.  `huniq` is the store invariant that non-revoked refresh tokens
are unique per user, `hfreshid`/`hfreshtok` the freshness of the new
row id and of the newly signed token, and `holdiat` says the presented
token was signed in an earlier second than `now` (otherwise the new
signed token would be byte-identical to the old one). -/
theorem refresh_rotates_old_out_new_in
    (now : Nat) (users : List User) (store : List AuthToken) (newId : Nat)
    (p : TokenPayload) (rec : AuthToken) (user : User) (ip ua : String)
    (hp1 : p.id ≠ "") (hp2 : p.type = TOKEN_TYPES_REFRESH)
    (hexp : now / 1000 < p.exp) (hiat : p.iat ≠ 0)
    (hage : ¬(MAX_TOKEN_AGE_DAYS * 24 * 60 * 60 * 1000 < now - p.iat * 1000))
    (hfind : store.find? (fun r =>
        decide (r.user_id = p.id ∧ r.refresh_token = Token.signed p ∧ r.revoked = false))
      = some rec)
    (huser : findUserById users p.id = .ok user)
    (hactive : user.is_active = true) (hverified : user.is_email_verified = true)
    (hnow : 1000 ≤ now)
    (holdiat : p.iat ≠ now / 1000)
    (hfreshid : ∀ r ∈ store, r.id ≠ newId)
    (hfreshtok : ∀ r ∈ store, r.refresh_token ≠ generateRefreshToken now user.id)
    (huniq : ∀ r ∈ store, r.user_id = p.id → r.refresh_token = Token.signed p →
      r.revoked = false → r = rec) :
    ∃ store1,
      refresh now users store newId (Token.signed p) ip ua
        = .ok (store1,
            { access_token := generateAccessToken now user.id,
              refresh_token := generateRefreshToken now user.id,
              remember_me_token := none })
      ∧ validateRefreshToken now users store1 (Token.signed p)
          = .error "Refresh token is invalid or has been revoked."
      ∧ (∃ r2, validateRefreshToken now users store1 (generateRefreshToken now user.id)
          = .ok (r2, user))
      ∧ ¬(activeRefreshTokenVisible store p.id (Token.signed p) = true
          ∧ activeRefreshTokenVisible store p.id (generateRefreshToken now user.id) = true)
      ∧ ¬(activeRefreshTokenVisible store1 p.id (Token.signed p) = true
          ∧ activeRefreshTokenVisible store1 p.id (generateRefreshToken now user.id) = true) := by
  have hval := validateRefreshToken_ok_of now users store p rec user
    hp1 hp2 hexp hiat hage hfind huser hactive hverified
  have hmemrec : rec ∈ store := List.mem_of_find?_eq_some hfind
  have hpredrec := List.find?_some hfind
  rw [decide_eq_true_eq] at hpredrec
  have huid : user.id = p.id := by
    unfold findUserById at huser
    cases hfu : users.find? (fun u => decide (u.id = p.id)) with
    | none => rw [hfu] at huser; exact absurd huser (by simp)
    | some a =>
      rw [hfu] at huser
      have ha := List.find?_some hfu
      rw [decide_eq_true_eq] at ha
      have : a = user := by simpa using huser
      rw [← this, ha]
  have hne : Token.signed p ≠ generateRefreshToken now user.id := by
    simp only [generateRefreshToken]
    intro h
    injection h with h1
    exact holdiat (congrArg TokenPayload.iat h1)
  -- the committed post-state of the transaction
  set newRec := createTokenRecord now newId user.id ip ua false 1 with hnewRec
  set store1 := (store ++ [newRec]).map (fun r =>
    if r.id = rec.id then { r with revoked := true, last_used_at := some now } else r)
    with hstore1
  have hrefresh : refresh now users store newId (Token.signed p) ip ua
      = .ok (store1,
          { access_token := generateAccessToken now user.id,
            refresh_token := generateRefreshToken now user.id,
            remember_me_token := none }) := by
    unfold refresh
    rw [hval]
    rfl
  have hnewrec_tok : newRec.refresh_token = generateRefreshToken now user.id := by
    simp [hnewRec, createTokenRecord]
  have hnewrec_id : newRec.id = newId := by simp [hnewRec, createTokenRecord]
  -- no element of the committed state carries the old token non-revoked
  have hnone1 : store1.find? (fun r =>
      decide (r.user_id = p.id ∧ r.refresh_token = Token.signed p ∧ r.revoked = false))
      = none := by
    apply List.find?_eq_none.2
    intro x hx
    rw [hstore1] at hx
    obtain ⟨r, hr, hfx⟩ := List.mem_map.1 hx
    rw [decide_eq_true_eq]
    rintro ⟨hxu, hxt, hxrev⟩
    rcases List.mem_append.1 hr with hrs | hrn
    · by_cases hrid : r.id = rec.id
      · rw [if_pos hrid] at hfx
        rw [← hfx] at hxrev
        simp at hxrev
      · rw [if_neg hrid] at hfx
        subst hfx
        exact hrid (congrArg AuthToken.id (huniq r hrs hxu hxt hxrev))
    · have hrn' : r = newRec := by simpa using hrn
      have hidne2 : ¬ r.id = rec.id := by
        rw [hrn', hnewrec_id]
        exact fun h => hfreshid rec hmemrec h.symm
      rw [if_neg hidne2, hrn'] at hfx
      rw [← hfx] at hxt
      rw [hnewrec_tok] at hxt
      exact hne hxt.symm
  -- the committed state contains the new record, non-revoked
  have hsome1 : ∃ x ∈ store1,
      (fun r => decide (r.user_id = user.id ∧
        r.refresh_token = generateRefreshToken now user.id ∧ r.revoked = false)) x = true := by
    have hidne : ¬ newRec.id = rec.id := by
      rw [hnewrec_id]
      exact fun h => hfreshid rec hmemrec h.symm
    refine ⟨newRec, ?_, ?_⟩
    · rw [hstore1]
      apply List.mem_map.2
      refine ⟨newRec, by simp, ?_⟩
      simp [hidne]
    · rw [decide_eq_true_eq]
      refine ⟨by simp [hnewRec, createTokenRecord], hnewrec_tok, ?_⟩
      simp [hnewRec, createTokenRecord]
  refine ⟨store1, hrefresh, ?_, ?_, ?_, ?_⟩
  · exact validateRefreshToken_err_of_none now users store1 p hp1 hp2 hexp hiat hage hnone1
  · have hisSome : (store1.find? (fun r => decide (r.user_id = user.id ∧
        r.refresh_token = generateRefreshToken now user.id ∧ r.revoked = false))).isSome := by
      rw [List.find?_isSome]
      exact hsome1
    obtain ⟨r2, hr2⟩ := Option.isSome_iff_exists.1 hisSome
    refine ⟨r2, ?_⟩
    have := validateRefreshToken_ok_of now users store1
      { id := user.id, type := TOKEN_TYPES_REFRESH, iat := now / 1000,
        exp := now / 1000 + 7 * 24 * 60 * 60 } r2 user
      (by rw [huid]; exact hp1) rfl
      (by show now / 1000 < now / 1000 + 7 * 24 * 60 * 60; omega)
      (by show ¬(now / 1000 = 0); omega)
      (by show ¬(MAX_TOKEN_AGE_DAYS * 24 * 60 * 60 * 1000 < now - now / 1000 * 1000)
          unfold MAX_TOKEN_AGE_DAYS; omega)
      (by exact hr2) (by rw [huid]; exact huser) hactive hverified
    simpa [generateRefreshToken] using this
  · rintro ⟨-, hnew⟩
    unfold activeRefreshTokenVisible at hnew
    rw [List.any_eq_true] at hnew
    obtain ⟨r, hr, hpr⟩ := hnew
    rw [decide_eq_true_eq] at hpr
    exact hfreshtok r hr hpr.2.1
  · rintro ⟨hold, -⟩
    unfold activeRefreshTokenVisible at hold
    rw [List.any_eq_true] at hold
    obtain ⟨r, hr, hpr⟩ := hold
    have := List.find?_eq_none.1 hnone1 r hr
    exact this hpr

/-- C1 witness: a concrete rotation of a single-record store. -/
theorem refresh_rotates_old_out_new_in_witness :
    ∃ store1,
      refresh 5000000 [c1User] [c1OldRecord] 2 (Token.signed c1Payload) "9.9.9.9" "agent"
        = .ok (store1,
            { access_token := generateAccessToken 5000000 "u1",
              refresh_token := generateRefreshToken 5000000 "u1",
              remember_me_token := none })
      ∧ validateRefreshToken 5000000 [c1User] store1 (Token.signed c1Payload)
          = .error "Refresh token is invalid or has been revoked."
      ∧ (∃ r2, validateRefreshToken 5000000 [c1User] store1
            (generateRefreshToken 5000000 "u1") = .ok (r2, c1User))
      ∧ ¬(activeRefreshTokenVisible [c1OldRecord] c1Payload.id (Token.signed c1Payload) = true
          ∧ activeRefreshTokenVisible [c1OldRecord] c1Payload.id
              (generateRefreshToken 5000000 "u1") = true)
      ∧ ¬(activeRefreshTokenVisible store1 c1Payload.id (Token.signed c1Payload) = true
          ∧ activeRefreshTokenVisible store1 c1Payload.id
              (generateRefreshToken 5000000 "u1") = true) :=
  refresh_rotates_old_out_new_in 5000000 [c1User] [c1OldRecord] 2 c1Payload c1OldRecord
    c1User "9.9.9.9" "agent" (by decide) rfl (by decide) (by decide) (by decide) rfl rfl
    rfl rfl (by decide) (by decide) (by decide) (by decide) (by decide)

/-- C3: `validateAccessToken` performs its checks in exactly the
spec-listed order.  Conjuncts: (1) the source function coincides with the
spec-ordered chain `specValidateAccess` on all inputs; (2) a token that
verifies but fails the age check produces the age error for every user
directory and store — the age check precedes all lookups; (3) when both
the IP and the user-agent pinning checks would fire, the IP-mismatch
error is the one reported; (4) the possible outcome messages are pairwise
distinct. -/
theorem validateAccess_order_and_precedence :
    validateAccessToken = specValidateAccess
    ∧ (∀ now users store p email ip ua,
        p.id ≠ "" → p.type = TOKEN_TYPES_ACCESS → now / 1000 < p.exp →
        (validateTokenAge now p).isValid = false →
        validateAccessToken now users store (Token.signed p) email ip ua
          = .error { user := none, is_valid := false,
                     message := (validateTokenAge now p).message,
                     user_status := some { is_active := false, is_email_verified := false,
                                           token_status := "expired" } })
    ∧ (∀ now users store p u rec ip ua,
        p.id ≠ "" → p.type = TOKEN_TYPES_ACCESS → now / 1000 < p.exp →
        p.iat ≠ 0 → ¬(MAX_TOKEN_AGE_DAYS * 24 * 60 * 60 * 1000 < now - p.iat * 1000) →
        findUserById users p.id = .ok u →
        u.is_active = true → u.is_email_verified = true →
        store.find? (fun r =>
          decide (r.user_id = p.id ∧ r.access_token = Token.signed p ∧ r.revoked = false))
          = some rec →
        rec.ip_address ≠ ip → rec.user_agent ≠ ua →
        validateAccessToken now users store (Token.signed p) none (some ip) (some ua)
          = .error { user := none, is_valid := false,
                     message := "Token IP address mismatch.",
                     user_status := some { is_active := true, is_email_verified := true,
                                           token_status := "invalid" } })
    ∧ accessOutcomeMessages.Nodup := by
  refine ⟨rfl, ?_, ?_, by decide⟩
  · intro now users store p email ip ua hp1 hp2 hexp hageinv
    have h1 : ¬ p.exp ≤ now / 1000 := Nat.not_le_of_lt hexp
    simp only [validateAccessToken, validateTokenType, jwtVerify]
    simp [h1, hp1, hp2, hageinv]
  · intro now users store p u rec ip ua hp1 hp2 hexp hiat hage huser hactive hverified
      hfind hip hua
    have h1 : ¬ p.exp ≤ now / 1000 := Nat.not_le_of_lt hexp
    simp only [validateAccessToken, validateTokenType, jwtVerify, validateTokenAge]
    simp at hfind
    simp [h1, hp1, hp2, hiat, hage, huser, hactive, hverified, hfind, hip,
      ALLOWED_IP_CHANGE]

/-- C3 witness: concrete instances of the age-independence and the
IP-before-device tie-break. -/
theorem validateAccess_order_and_precedence_witness :
    validateAccessToken 2592002000 [] []
        (Token.signed { id := "u1", type := "access", iat := 1, exp := 3000000 })
        none none none
      = .error { user := none, is_valid := false,
                 message := "Token has exceeded maximum age of 30 days.",
                 user_status := some { is_active := false, is_email_verified := false,
                                       token_status := "expired" } }
    ∧ validateAccessToken 5000000
        [{ id := "u1", email := "a@b.c", is_active := true, is_email_verified := true }]
        [{ id := 1, user_id := "u1",
           access_token := Token.signed { id := "u1", type := "access", iat := 4000,
                                          exp := 6700 },
           refresh_token := Token.malformed "r", ip_address := "1.1.1.1",
           user_agent := "ua1", revoked := false, remember_me_token := none,
           is_remember_me_token := false, remember_me_expires_at := none,
           token_version := none, last_used_at := none }]
        (Token.signed { id := "u1", type := "access", iat := 4000, exp := 6700 })
        none (some "2.2.2.2") (some "ua2")
      = .error { user := none, is_valid := false,
                 message := "Token IP address mismatch.",
                 user_status := some { is_active := true, is_email_verified := true,
                                       token_status := "invalid" } } := by
  constructor
  · exact validateAccess_order_and_precedence.2.1 2592002000 [] []
      { id := "u1", type := "access", iat := 1, exp := 3000000 } none none none
      (by decide) rfl (by decide) (by decide)
  · exact validateAccess_order_and_precedence.2.2.1 5000000
      [{ id := "u1", email := "a@b.c", is_active := true, is_email_verified := true }]
      [{ id := 1, user_id := "u1",
         access_token := Token.signed { id := "u1", type := "access", iat := 4000,
                                        exp := 6700 },
         refresh_token := Token.malformed "r", ip_address := "1.1.1.1",
         user_agent := "ua1", revoked := false, remember_me_token := none,
         is_remember_me_token := false, remember_me_expires_at := none,
         token_version := none, last_used_at := none }]
      { id := "u1", type := "access", iat := 4000, exp := 6700 }
      { id := "u1", email := "a@b.c", is_active := true, is_email_verified := true }
      _ "2.2.2.2" "ua2"
      (by decide) rfl (by decide) (by decide) (by decide) rfl rfl rfl rfl
      (by decide) (by decide)

/-- C6 counterexample: the same operation sequence — `incrementRecord`
from an empty store, then `addToBlacklist`, then `resetRecord` — makes
the two backends diverge: the Redis `resetRecord` fails with the
blacklisted error (it reads through `getRecord`, which checks the
blacklist first) while the file-backed `resetRecord` succeeds and zeroes
the record (it reads the map directly). -/
theorem rateLimitStore_backend_divergence :
    redisIncrementRecord c6Cfg 10 1000000 { records := [], blacklist := [] } "1.2.3.4" false
        = some (.ok c6RedisSt1)
    ∧ fileIncrementRecord c6Cfg 1000000 { records := [], blacklist := [] } "1.2.3.4" false
        = .ok c6FileSt1
    ∧ redisResetRecord c6Cfg 10 1000000 (redisBlacklistAdd c6RedisSt1 "1.2.3.4") "1.2.3.4"
        = some (.error "IP is blacklisted")
    ∧ fileResetRecord 1000000 (fileBlacklistAdd c6FileSt1 "1.2.3.4") "1.2.3.4"
        = { records := [("1.2.3.4",
              { ip := "1.2.3.4", requests := 0, lastReset := 1000000,
                isAuthenticated := false, violations := 0 })],
            blacklist := ["1.2.3.4"] } :=
  ⟨rfl, rfl, rfl, rfl⟩

/-- C6 amended: both backends' `resetRecord` zero `requests` and
`violations` and refresh `lastReset` while preserving the record's
identity — unconditionally for the file backend when the record exists,
and for the Redis backend only when additionally the IP is not
blacklisted, the key has not TTL-expired and the stored window has not
elapsed; the two backends do not implement an identical contract (see the
divergence counterexample). -/
theorem resetRecord_contract_both_backends
    (cfg : RateLimitConfig) (fuel now : Nat) (stR : RedisState) (stF : FileState)
    (ip : String) (kvR : String × RedisEntry) (kvF : String × IPRecord)
    (hbl : stR.blacklist.any (fun b => decide (b = ip)) = false)
    (hfindR : stR.records.find? (fun kv => decide (kv.1 = recordKey ip)) = some kvR)
    (httl : now < kvR.2.expiresAt)
    (hwindow : ¬(kvR.2.record.lastReset <
      now - (if kvR.2.record.isAuthenticated then cfg.authWindowSeconds
             else cfg.unauthWindowSeconds) * 1000))
    (hfindF : stF.records.find? (fun kv => decide (kv.1 = ip)) = some kvF) :
    redisResetRecord cfg (fuel + 2) now stR ip
        = some (.ok (redisSet stR (recordKey ip)
            { record :=
                { kvR.2.record with requests := 0, lastReset := now, violations := 0 },
              expiresAt := now + cfg.authWindowSeconds * 1000 }))
      ∧ fileResetRecord now stF ip
        = fileSet stF ip { kvF.2 with requests := 0, lastReset := now, violations := 0 } := by
  constructor
  · rw [redisResetRecord, redisGetRecord]
    rw [hbl]
    simp only [Bool.false_eq_true, if_false]
    unfold redisGet
    rw [hfindR]
    simp only [httl, if_true, hwindow, if_false]
  · unfold fileResetRecord
    rw [hfindF]

/-- C6 amended witness: the reset contract at a concrete record in both
backends. -/
theorem resetRecord_contract_both_backends_witness :
    redisResetRecord c6Cfg 9 1000500 c6RedisSt1 "1.2.3.4"
        = some (.ok (redisSet c6RedisSt1 "rate-limit:1.2.3.4"
            { record := { ip := "1.2.3.4", requests := 0, lastReset := 1000500,
                          isAuthenticated := false, violations := 0 },
              expiresAt := 1060500 }))
      ∧ fileResetRecord 1000500 c6FileSt1 "1.2.3.4"
        = fileSet c6FileSt1 "1.2.3.4"
            { ip := "1.2.3.4", requests := 0, lastReset := 1000500,
              isAuthenticated := false, violations := 0 } :=
  resetRecord_contract_both_backends c6Cfg 7 1000500 c6RedisSt1 c6FileSt1 "1.2.3.4"
    ("rate-limit:1.2.3.4",
      { record := { ip := "1.2.3.4", requests := 1, lastReset := 1000000,
                    isAuthenticated := false, violations := 0 },
        expiresAt := 1060000 })
    ("1.2.3.4",
      { ip := "1.2.3.4", requests := 1, lastReset := 1000000,
        isAuthenticated := false, violations := 0 })
    rfl rfl (by decide) (by decide) rfl

/-- The `getRecord` on an empty Redis store returns no record, no error. -/
theorem redisGetRecord_empty (cfg : RateLimitConfig) (fuel now : Nat) (ip : String) :
    redisGetRecord cfg (fuel + 1) now { records := [], blacklist := [] } ip
      = some (.ok (none, { records := [], blacklist := [] })) := by
  rw [redisGetRecord]
  simp [redisGet]

/-- The `getRecord` on the in-window `c7State`: not blacklisted, key alive,
window not elapsed, so the stored record is returned unchanged. -/
theorem redisGetRecord_c7 (cfg : RateLimitConfig) (fuel now : Nat) (ip : String)
    (isAuth : Bool) (i : Nat) (hW : 1 ≤ cfg.authWindowSeconds) :
    redisGetRecord cfg (fuel + 1) now (c7State cfg now ip isAuth i) ip
      = some (.ok (some { ip := ip, requests := i, lastReset := now,
                          isAuthenticated := isAuth, violations := 0 },
                   c7State cfg now ip isAuth i)) := by
  rw [redisGetRecord]
  have httl : now < now + cfg.authWindowSeconds * 1000 := by omega
  cases isAuth
  · have hwin : ¬(now < now - cfg.unauthWindowSeconds * 1000) := by
      have := Nat.sub_le now (cfg.unauthWindowSeconds * 1000)
      omega
    simp [c7State, redisGet, httl, hwin]
  · have hwin : ¬(now < now - cfg.authWindowSeconds * 1000) := by
      have := Nat.sub_le now (cfg.authWindowSeconds * 1000)
      omega
    simp [c7State, redisGet, httl, hwin]

/-- The `incrementRecord` on a fresh IP creates the one-request record
(no violation when the limit is nonzero). -/
theorem redisIncrementRecord_fresh (cfg : RateLimitConfig) (fuel now : Nat) (ip : String)
    (isAuth : Bool) (hv : applicableLimit cfg isAuth ≠ 0) :
    redisIncrementRecord cfg (fuel + 1) now { records := [], blacklist := [] } ip isAuth
      = some (.ok (c7State cfg now ip isAuth 1)) := by
  unfold redisIncrementRecord
  rw [redisGetRecord_empty]
  cases isAuth
  · have hv1 : ¬(cfg.unauthenticatedLimit < 1) := by
      simp [applicableLimit] at hv
      omega
    simp [redisSet, c7State, hv1]
  · have hv1 : ¬(cfg.authenticatedLimit < 1) := by
      simp [applicableLimit] at hv
      omega
    simp [redisSet, c7State, hv1]

/-- The `incrementRecord` on an in-window record below the limit bumps the
request counter and nothing else. -/
theorem redisIncrementRecord_step (cfg : RateLimitConfig) (fuel now : Nat) (ip : String)
    (isAuth : Bool) (i : Nat) (hW : 1 ≤ cfg.authWindowSeconds)
    (hlt : i < applicableLimit cfg isAuth) :
    redisIncrementRecord cfg (fuel + 1) now (c7State cfg now ip isAuth i) ip isAuth
      = some (.ok (c7State cfg now ip isAuth (i + 1))) := by
  unfold redisIncrementRecord
  rw [redisGetRecord_c7 cfg fuel now ip isAuth i hW]
  cases isAuth
  · have hv1 : ¬(cfg.unauthenticatedLimit < i + 1) := by
      simp [applicableLimit] at hlt
      omega
    simp [redisSet, c7State, hv1]
  · have hv1 : ¬(cfg.authenticatedLimit < i + 1) := by
      simp [applicableLimit] at hlt
      omega
    simp [redisSet, c7State, hv1]

/-- C7: from a fresh IP, with `N` the applicable limit, each of the first
`N` requests inside one window is allowed (with quota headers counting
`remaining` down to `N - requests`), and the `(N+1)`-th request in the
same window is rejected with the 429 outcome, `remaining = 0` and a
`Retry-After` of `ceil((lastReset + window*1000 - now) / 1000)` seconds —
which, at `lastReset = now`, is exactly the window length. -/
theorem redisMiddleware_limit_boundary
    (cfg : RateLimitConfig) (fuel now : Nat) (ip : String) (isAuth : Bool)
    (hW : 1 ≤ cfg.authWindowSeconds)
    (hN : 1 ≤ applicableLimit cfg isAuth) :
    (redisCheckRateLimit cfg (fuel + 1) now { records := [], blacklist := [] } ip isAuth
        = some (.allowed (some (applicableLimit cfg isAuth,
              (applicableLimit cfg isAuth : Int) - ((1 : Nat) : Int),
              calculateResetTime now (applicableWindow cfg isAuth))),
            c7State cfg now ip isAuth 1))
    ∧ (∀ i, i < applicableLimit cfg isAuth →
        redisCheckRateLimit cfg (fuel + 1) now (c7State cfg now ip isAuth i) ip isAuth
          = some (.allowed (some (applicableLimit cfg isAuth,
                (applicableLimit cfg isAuth : Int) - ((i + 1 : Nat) : Int),
                calculateResetTime now (applicableWindow cfg isAuth))),
              c7State cfg now ip isAuth (i + 1)))
    ∧ (redisCheckRateLimit cfg (fuel + 1) now
          (c7State cfg now ip isAuth (applicableLimit cfg isAuth)) ip isAuth
        = some (.tooMany (applicableLimit cfg isAuth) 0
              (calculateResetTime now (applicableWindow cfg isAuth))
              (jsCeilDiv ((now : Int) + (applicableWindow cfg isAuth : Int) * 1000
                - (now : Int)) 1000),
            c7State cfg now ip isAuth (applicableLimit cfg isAuth)))
    ∧ jsCeilDiv ((now : Int) + (applicableWindow cfg isAuth : Int) * 1000 - (now : Int)) 1000
        = (applicableWindow cfg isAuth : Int) := by
  refine ⟨?_, ?_, ?_, ?_⟩
  · unfold redisCheckRateLimit
    simp only [redisGetRecord_empty,
      redisIncrementRecord_fresh cfg fuel now ip isAuth (by omega),
      redisGetRecord_c7 cfg fuel now ip isAuth 1 hW]
    cases isAuth <;> simp [applicableLimit, applicableWindow, c7State]
  · intro i hi
    unfold redisCheckRateLimit
    simp only [redisGetRecord_c7 cfg fuel now ip isAuth i hW,
      redisIncrementRecord_step cfg fuel now ip isAuth i hW hi,
      redisGetRecord_c7 cfg fuel now ip isAuth (i + 1) hW]
    have hblocked : ¬(applicableLimit cfg isAuth ≤ i) := Nat.not_le.2 hi
    cases isAuth
    · have hb : ¬(cfg.unauthenticatedLimit ≤ i) := by
        simpa [applicableLimit] using hblocked
      simp [applicableLimit, applicableWindow, hb, c7State]
    · have hb : ¬(cfg.authenticatedLimit ≤ i) := by
        simpa [applicableLimit] using hblocked
      simp [applicableLimit, applicableWindow, hb, c7State]
  · unfold redisCheckRateLimit
    simp only [redisGetRecord_c7 cfg fuel now ip isAuth (applicableLimit cfg isAuth) hW]
    cases isAuth <;> simp [applicableLimit, applicableWindow, c7State]
  · have hto : (now : Int) + (applicableWindow cfg isAuth : Int) * 1000 - (now : Int)
        = (applicableWindow cfg isAuth : Int) * 1000 := by ring
    rw [hto]
    unfold jsCeilDiv
    rw [show -((applicableWindow cfg isAuth : Int) * 1000)
        = (-(applicableWindow cfg isAuth : Int)) * 1000 by ring]
    rw [Int.mul_fdiv_cancel _ (by norm_num : (1000 : Int) ≠ 0)]
    ring

/-- C7 witness: the limit boundary at the login route's concrete
configuration (limit 2): request 3 from the same IP in the same window is
the first rejected one, with `Retry-After` equal to the window. -/
theorem redisMiddleware_limit_boundary_witness :
    (redisCheckRateLimit c7Cfg 10 1000000 { records := [], blacklist := [] } "8.8.8.8" false
        = some (.allowed (some (applicableLimit c7Cfg false,
              (applicableLimit c7Cfg false : Int) - ((1 : Nat) : Int),
              calculateResetTime 1000000 (applicableWindow c7Cfg false))),
            c7State c7Cfg 1000000 "8.8.8.8" false 1))
    ∧ (∀ i, i < applicableLimit c7Cfg false →
        redisCheckRateLimit c7Cfg 10 1000000 (c7State c7Cfg 1000000 "8.8.8.8" false i)
            "8.8.8.8" false
          = some (.allowed (some (applicableLimit c7Cfg false,
                (applicableLimit c7Cfg false : Int) - ((i + 1 : Nat) : Int),
                calculateResetTime 1000000 (applicableWindow c7Cfg false))),
              c7State c7Cfg 1000000 "8.8.8.8" false (i + 1)))
    ∧ (redisCheckRateLimit c7Cfg 10 1000000
          (c7State c7Cfg 1000000 "8.8.8.8" false (applicableLimit c7Cfg false)) "8.8.8.8" false
        = some (.tooMany (applicableLimit c7Cfg false) 0
              (calculateResetTime 1000000 (applicableWindow c7Cfg false))
              (jsCeilDiv ((1000000 : Int) + (applicableWindow c7Cfg false : Int) * 1000
                - (1000000 : Int)) 1000),
            c7State c7Cfg 1000000 "8.8.8.8" false (applicableLimit c7Cfg false)))
    ∧ jsCeilDiv ((1000000 : Int) + (applicableWindow c7Cfg false : Int) * 1000
        - (1000000 : Int)) 1000 = (applicableWindow c7Cfg false : Int) :=
  redisMiddleware_limit_boundary c7Cfg 9 1000000 "8.8.8.8" false (by decide) (by decide)

/-- C8: on a blacklisted IP the Redis-variant middleware sends the
distinct access-denied reply (and its inner catch maps every other
storage error to the generic 500 reply), but the file-variant middleware
— whose only error handling is an outer catch that logs — sends no reply
at all: the request passes to the downstream handler with no rate
limiting applied. -/
theorem fileMiddleware_fail_open :
    redisCheckRateLimit c7Cfg 10 1000000
        { records := [], blacklist := ["6.6.6.6"] } "6.6.6.6" false
      = some (.blacklistDenied, { records := [], blacklist := ["6.6.6.6"] })
    ∧ redisHandleStorageError "Redis connection failed" = .serverError
    ∧ fileCheckRateLimit c7Cfg 1000000
        { records := [], blacklist := ["6.6.6.6"] } "6.6.6.6" false
      = (none, { records := [], blacklist := ["6.6.6.6"] }) :=
  ⟨rfl, rfl, rfl⟩

/-- C9 counterexample: with the findUser route's configuration
(`unauthenticatedLimit: 0`), the very first unauthenticated request from
a fresh IP is allowed through (getRecord finds no record, so the block
check is skipped) and its increment drives `requests` to `1 > 0` and the
`violations` counter to `1` — the stored requests counter exceeds the
limit and violations becomes positive on this middleware-only path. -/
theorem redisMiddleware_limit_zero_violation :
    redisCheckRateLimit c9Cfg 10 1000000 { records := [], blacklist := [] } "7.7.7.7" false
      = some (.allowed (some (0, -1, calculateResetTime 1000000 60)),
          { records := [("rate-limit:7.7.7.7",
              { record := { ip := "7.7.7.7", requests := 1, lastReset := 1000000,
                            isAuthenticated := false, violations := 1 },
                expiresAt := 1060000 })],
            blacklist := [] }) :=
  rfl

/-- On an elapsed window the Redis `getRecord` never returns:
`getRecord` calls `resetRecord`, which re-enters `getRecord` on the
unchanged state, and the recursion consumes any amount of fuel. -/
theorem redisGetRecord_elapsed_none (cfg : RateLimitConfig) (now : Nat) (ip : String) :
    ∀ fuel (st : RedisState),
    st.blacklist.any (fun b => decide (b = ip)) = false →
    ∀ parsed, redisGet now st (recordKey ip) = some parsed →
    parsed.lastReset < now - (if parsed.isAuthenticated then cfg.authWindowSeconds
      else cfg.unauthWindowSeconds) * 1000 →
    redisGetRecord cfg fuel now st ip = none := by
  intro fuel
  induction fuel using Nat.strong_induction_on with
  | _ fuel IH =>
    match fuel with
    | 0 =>
      intro st _ parsed _ _
      rfl
    | 1 =>
      intro st hbl parsed hget helap
      rw [redisGetRecord, hbl]
      simp only [Bool.false_eq_true, if_false]
      rw [hget]
      simp only [if_pos helap]
      rfl
    | m + 2 =>
      intro st hbl parsed hget helap
      rw [redisGetRecord, hbl]
      simp only [Bool.false_eq_true, if_false]
      rw [hget]
      simp only [if_pos helap]
      rw [redisResetRecord]
      rw [IH m (by omega) st hbl parsed hget helap]

/-- The `getRecord` on a live, in-window `c9State` returns the record. -/
theorem redisGetRecord_c9 (cfg : RateLimitConfig) (fuel now : Nat) (ip : String)
    (isAuth : Bool) (i t0 te : Nat) (httl : now < te)
    (hwin : ¬(t0 < now - (if isAuth then cfg.authWindowSeconds
      else cfg.unauthWindowSeconds) * 1000)) :
    redisGetRecord cfg (fuel + 1) now (c9State ip isAuth i t0 te) ip
      = some (.ok (some { ip := ip, requests := i, lastReset := t0,
                          isAuthenticated := isAuth, violations := 0 },
                   c9State ip isAuth i t0 te)) := by
  rw [redisGetRecord]
  cases isAuth <;> simp_all [c9State, redisGet]

/-- The `getRecord` on a `c9State` whose Redis key has TTL-expired behaves as
on a fresh IP. -/
theorem redisGetRecord_c9_dead (cfg : RateLimitConfig) (fuel now : Nat) (ip : String)
    (isAuth : Bool) (i t0 te : Nat) (hle : te ≤ now) :
    redisGetRecord cfg (fuel + 1) now (c9State ip isAuth i t0 te) ip
      = some (.ok (none, c9State ip isAuth i t0 te)) := by
  rw [redisGetRecord]
  simp [c9State, redisGet, Nat.not_lt.2 hle]

/-- The `incrementRecord` on a live, in-window `c9State` below the limit just
bumps the counter (no violation, no blacklisting). -/
theorem redisIncrementRecord_c9 (cfg : RateLimitConfig) (fuel now : Nat) (ip : String)
    (isAuth : Bool) (i t0 te : Nat) (httl : now < te)
    (hwin : ¬(t0 < now - (if isAuth then cfg.authWindowSeconds
      else cfg.unauthWindowSeconds) * 1000))
    (hlt : i < applicableLimit cfg isAuth) :
    redisIncrementRecord cfg (fuel + 1) now (c9State ip isAuth i t0 te) ip isAuth
      = some (.ok (c9State ip isAuth (i + 1) t0 (now + cfg.authWindowSeconds * 1000))) := by
  unfold redisIncrementRecord
  rw [redisGetRecord_c9 cfg fuel now ip isAuth i t0 te httl hwin]
  cases isAuth
  · have hv1 : ¬(cfg.unauthenticatedLimit < i + 1) := by
      simp [applicableLimit] at hlt
      omega
    simp [redisSet, c9State, hv1]
  · have hv1 : ¬(cfg.authenticatedLimit < i + 1) := by
      simp [applicableLimit] at hlt
      omega
    simp [redisSet, c9State, hv1]

/-- The `incrementRecord` on a TTL-expired `c9State` recreates the record at
one request (no violation when the limit is nonzero). -/
theorem redisIncrementRecord_c9_dead (cfg : RateLimitConfig) (fuel now : Nat) (ip : String)
    (isAuth : Bool) (i t0 te : Nat) (hle : te ≤ now)
    (hv : applicableLimit cfg isAuth ≠ 0) :
    redisIncrementRecord cfg (fuel + 1) now (c9State ip isAuth i t0 te) ip isAuth
      = some (.ok (c9State ip isAuth 1 now (now + cfg.authWindowSeconds * 1000))) := by
  unfold redisIncrementRecord
  rw [redisGetRecord_c9_dead cfg fuel now ip isAuth i t0 te hle]
  cases isAuth
  · have hv1 : ¬(cfg.unauthenticatedLimit < 1) := by
      simp [applicableLimit] at hv
      omega
    simp [redisSet, c9State, hv1]
  · have hv1 : ¬(cfg.authenticatedLimit < 1) := by
      simp [applicableLimit] at hv
      omega
    simp [redisSet, c9State, hv1]

/-- C9 amended: provided the applicable limit is at least 1, every
completed `checkRateLimit` step under an unchanging classification keeps
an IP's state inside the `c9State` family with `requests ≤ limit` — the
middleware blocks at `requests >= limit` before calling
`incrementRecord`, so the `requests > limit` branch of `incrementRecord`
never runs, `violations` stays 0 and the IP is never blacklisted.  (With
limit 0, reachable in this repository's findUser route configuration, the
first request does drive `violations` positive — see the
counterexample.) -/
theorem redisMiddleware_no_violation_invariant
    (cfg : RateLimitConfig) (fuel now : Nat) (ip : String) (isAuth : Bool)
    (resp : RLOutcome) (st' : RedisState)
    (hW : 1 ≤ cfg.authWindowSeconds)
    (hN : 1 ≤ applicableLimit cfg isAuth) :
    (redisCheckRateLimit cfg fuel now { records := [], blacklist := [] } ip isAuth
        = some (resp, st') →
      st' = c9State ip isAuth 1 now (now + cfg.authWindowSeconds * 1000))
    ∧ (∀ i t0 te, i ≤ applicableLimit cfg isAuth →
        redisCheckRateLimit cfg fuel now (c9State ip isAuth i t0 te) ip isAuth
          = some (resp, st') →
        ∃ i' t0' te', st' = c9State ip isAuth i' t0' te'
          ∧ i' ≤ applicableLimit cfg isAuth) := by
  constructor
  · intro hstep
    cases fuel with
    | zero =>
      rw [redisCheckRateLimit] at hstep
      exact absurd hstep (by simp [redisGetRecord])
    | succ fuel =>
      unfold redisCheckRateLimit at hstep
      simp only [redisGetRecord_empty,
        redisIncrementRecord_fresh cfg fuel now ip isAuth (by omega),
        redisGetRecord_c7 cfg fuel now ip isAuth 1 hW] at hstep
      have : st' = c7State cfg now ip isAuth 1 := by
        cases isAuth <;> simp_all
      rw [this]
      rfl
  · intro i t0 te hi hstep
    cases fuel with
    | zero =>
      rw [redisCheckRateLimit] at hstep
      exact absurd hstep (by simp [redisGetRecord])
    | succ fuel =>
      by_cases httl : now < te
      · by_cases helap : t0 < now - (if isAuth then cfg.authWindowSeconds
          else cfg.unauthWindowSeconds) * 1000
        · -- elapsed window: the adapter recursion never returns
          have hnone := redisGetRecord_elapsed_none cfg now ip (fuel + 1)
            (c9State ip isAuth i t0 te) (by simp [c9State])
            { ip := ip, requests := i, lastReset := t0,
              isAuthenticated := isAuth, violations := 0 }
            (by simp [c9State, redisGet, httl]) (by simpa using helap)
          unfold redisCheckRateLimit at hstep
          rw [hnone] at hstep
          exact absurd hstep (by simp)
        · by_cases hblocked : applicableLimit cfg isAuth ≤ i
          · -- at the limit: blocked without increment, state unchanged
            unfold redisCheckRateLimit at hstep
            rw [redisGetRecord_c9 cfg fuel now ip isAuth i t0 te httl helap] at hstep
            refine ⟨i, t0, te, ?_, hi⟩
            cases isAuth
            · have hb : cfg.unauthenticatedLimit ≤ i := by
                simpa [applicableLimit] using hblocked
              simp [hb] at hstep
              exact hstep.2.symm
            · have hb : cfg.authenticatedLimit ≤ i := by
                simpa [applicableLimit] using hblocked
              simp [hb] at hstep
              exact hstep.2.symm
          · -- below the limit: increment, still within the limit
            have hlt : i < applicableLimit cfg isAuth := Nat.not_le.1 hblocked
            have hwin2 : ¬(t0 < now - (if isAuth then cfg.authWindowSeconds
                else cfg.unauthWindowSeconds) * 1000) := helap
            unfold redisCheckRateLimit at hstep
            simp only [redisGetRecord_c9 cfg fuel now ip isAuth i t0 te httl helap,
              redisIncrementRecord_c9 cfg fuel now ip isAuth i t0 te httl hwin2 hlt,
              redisGetRecord_c9 cfg fuel now ip isAuth (i + 1) t0
                (now + cfg.authWindowSeconds * 1000) (by omega) hwin2] at hstep
            refine ⟨i + 1, t0, now + cfg.authWindowSeconds * 1000, ?_, by omega⟩
            cases isAuth
            · have hb : ¬(cfg.unauthenticatedLimit ≤ i) := by
                simpa [applicableLimit] using hblocked
              simp [hb] at hstep
              exact hstep.2.symm
            · have hb : ¬(cfg.authenticatedLimit ≤ i) := by
                simpa [applicableLimit] using hblocked
              simp [hb] at hstep
              exact hstep.2.symm
      · -- the Redis key has TTL-expired: behaves as a fresh IP
        have hle : te ≤ now := Nat.not_lt.1 httl
        unfold redisCheckRateLimit at hstep
        simp only [redisGetRecord_c9_dead cfg fuel now ip isAuth i t0 te hle,
          redisIncrementRecord_c9_dead cfg fuel now ip isAuth i t0 te hle (by omega),
          redisGetRecord_c9 cfg fuel now ip isAuth 1 now
            (now + cfg.authWindowSeconds * 1000) (by omega)
            (by cases isAuth <;> simp)] at hstep
        refine ⟨1, now, now + cfg.authWindowSeconds * 1000, ?_, hN⟩
        cases isAuth <;> simp_all

/-- C9 amended witness: a concrete allowed step keeping the invariant
(the post-state stays in the zero-violation family). -/
theorem redisMiddleware_no_violation_invariant_witness :
    c9State "8.8.4.4" false 1 1000000 1060000
      = c9State "8.8.4.4" false 1 1000000 (1000000 + c7Cfg.authWindowSeconds * 1000) :=
  (redisMiddleware_no_violation_invariant c7Cfg 10 1000000 "8.8.4.4" false
    (.allowed (some (2, 1, calculateResetTime 1000000 60)))
    (c9State "8.8.4.4" false 1 1000000 1060000) (by decide) (by decide)).1 rfl

/-- C10 witness: concrete inputs for the empty-match revocation pair. -/
theorem revokeAllRememberMeTokens_ok_on_empty_match_witness :
    revokeAllRememberMeTokens 5000000 [] "u1"
        = .ok ([], "All Remember Me tokens successfully revoked.")
      ∧ revokeUserTokens 5000000 []
          (Token.signed { id := "u1", type := "access", iat := 5000, exp := 7700 }) none none
        = .error "No valid tokens found to revoke." :=
  revokeAllRememberMeTokens_ok_on_empty_match 5000000 [] "u1" (by simp)
    (Token.signed { id := "u1", type := "access", iat := 5000, exp := 7700 })
    { id := "u1", type := "access", iat := 5000, exp := 7700 } rfl
